import Mathlib

/-!
Verification of the InvokeAI canvas transform/interaction subsystem.

Shallow embedding of the transform and viewport code
(CanvasTransformer, CanvasStageModule, CanvasStateApi) from
src/invokeai/frontend/web/src/features/controlLayers/konva/CanvasTransformer.ts.

JavaScript numbers are modelled as exact rationals; Math.round, Math.sign,
the JS remainder operator and lodash clamp are given their exact
mathematical definitions.  Math.PI is modelled by the exact rational value
of the IEEE-754 double that JavaScript uses for it, so the remainder test
of the rotation-snap constraint is reproduced exactly.
-/

namespace Spec2Proof

/-- JS Math.round: round to the nearest integer, halves toward plus infinity. -/
def jsRound (q : ℚ) : ℤ := ⌊q + 1/2⌋

/-- JS Math.sign: 1 for positive, -1 for negative, 0 for zero. -/
def jsSign (q : ℚ) : ℚ := if 0 < q then 1 else if q < 0 then -1 else 0

/-- Truncation toward zero, as used by the JS remainder operator. -/
def jsTrunc (q : ℚ) : ℤ := if q < 0 then ⌈q⌉ else ⌊q⌋

/-- JS remainder operator a % b: the remainder of truncating division,
with the sign of the dividend. -/
def jsMod (a b : ℚ) : ℚ := a - b * (jsTrunc (a / b) : ℚ)

/-- The lodash clamp function: the argument is first capped at the upper
bound, then raised to the lower bound. -/
def clamp (n lower upper : ℚ) : ℚ := max (min n upper) lower

/-- The exact rational value of the IEEE-754 double Math.PI. -/
def jsPI : ℚ := 884279719003555 / 2 ^ 48

/-- A point in stage coordinates, as the Coordinate type of the source. -/
structure Coordinate where
  x : ℚ
  y : ℚ
deriving DecidableEq

/-- A rectangle in stage coordinates, as the Rect type of the source. -/
structure Rect where
  x : ℚ
  y : ℚ
  width : ℚ
  height : ℚ
deriving DecidableEq

/-- A width/height pair, as the Dimensions type of the source. -/
structure Dimensions where
  width : ℚ
  height : ℚ
deriving DecidableEq

/-- The bounding box handed to the Konva boundBoxFunc callback:
position, size and rotation in radians. -/
structure BoundBox where
  x : ℚ
  y : ℚ
  width : ℚ
  height : ℚ
  rotation : ℚ
deriving DecidableEq

/-- The attributes written to the proxy rectangle and the object group by
the transformend handler of CanvasTransformer. -/
structure TransformEndResult where
  snappedX : ℚ
  snappedY : ℚ
  targetWidth : ℚ
  targetHeight : ℚ
  snappedScaleX : ℚ
  snappedScaleY : ℚ
deriving DecidableEq

/-- The transformend handler of CanvasTransformer: given the proxy
rectangle attributes x, y, width, height, scaleX, scaleY at mouse-up, it
snaps the position to the nearest pixel, converts the accumulated scales
into integer target dimensions of at least 1, and recomputes scales that
reproduce those dimensions, restoring the signs of the incoming scales. -/
def transformEnd (x y width height scaleX scaleY : ℚ) : TransformEndResult :=
  let snappedX : ℚ := (jsRound x : ℤ)
  let snappedY : ℚ := (jsRound y : ℤ)
  let targetWidth : ℚ := ((max |jsRound (width * scaleX)| 1 : ℤ) : ℚ)
  let targetHeight : ℚ := ((max |jsRound (height * scaleY)| 1 : ℤ) : ℚ)
  let snappedScaleX : ℚ := targetWidth / width * jsSign scaleX
  let snappedScaleY : ℚ := targetHeight / height * jsSign scaleY
  ⟨snappedX, snappedY, targetWidth, targetHeight, snappedScaleX, snappedScaleY⟩

/-- The boundBoxFunc callback of the Konva transformer: when the rotate
anchor is active and shift is held, a candidate whose rotation has a
nonzero remainder modulo a quarter of Math.PI is rejected by returning the
old bounding box; otherwise the new bounding box is returned. -/
def boundBoxFunc (shiftKey : Bool) (activeAnchor : Option String)
    (oldBoundBox newBoundBox : BoundBox) : BoundBox :=
  if activeAnchor ≠ some "rotater" then newBoundBox
  else if shiftKey then
    if 0 < |jsMod newBoundBox.rotation (jsPI / 4)| then oldBoundBox
    else newBoundBox
  else newBoundBox

/-- The tools of the canvas tool state. -/
inductive Tool
  | brush
  | eraser
  | rect
  | move
  | view
  | bbox
deriving DecidableEq, Fintype

/-- The interaction modes of CanvasTransformer. -/
inductive InteractionMode
  | all
  | drag
  | off
deriving DecidableEq

/-- The outcome of syncInteractionState: whether the parent layer is left
listening, and the interaction mode the transformer is set to. -/
structure SyncOutcome where
  layerListening : Bool
  mode : InteractionMode
deriving DecidableEq

/-- CanvasTransformer.syncInteractionState as a pure function of whether
the renderer has objects, whether the entity is selected, the selected
tool, and whether a transform is in progress. -/
def syncInteractionState (hasObjects isSelected : Bool) (tool : Tool)
    (isTransforming : Bool) : SyncOutcome :=
  if !hasObjects then ⟨false, InteractionMode.off⟩
  else if isSelected && !isTransforming && (tool == Tool.move) then
    ⟨true, InteractionMode.drag⟩
  else if isSelected && isTransforming then
    if tool != Tool.view then ⟨true, InteractionMode.all⟩
    else ⟨false, InteractionMode.off⟩
  else ⟨false, InteractionMode.off⟩

/-- The flags and widget visibility state owned by CanvasTransformer that
setInteractionMode and its helpers mutate. -/
structure TransformerFlags where
  interactionMode : InteractionMode
  isDragEnabled : Bool
  isTransformEnabled : Bool
  proxyRectVisible : Bool
  proxyRectListening : Bool
  transformerVisible : Bool
  transformerListening : Bool
  transformerHasNodes : Bool
  bboxOutlineVisible : Bool
deriving DecidableEq

/-- CanvasTransformer enableTransform helper. -/
def _enableTransform (st : TransformerFlags) : TransformerFlags :=
  { st with isTransformEnabled := true, transformerVisible := true,
            transformerListening := true, transformerHasNodes := true }

/-- CanvasTransformer disableTransform helper. -/
def _disableTransform (st : TransformerFlags) : TransformerFlags :=
  { st with isTransformEnabled := false, transformerVisible := false,
            transformerListening := false, transformerHasNodes := false }

/-- CanvasTransformer enableDrag helper. -/
def _enableDrag (st : TransformerFlags) : TransformerFlags :=
  { st with isDragEnabled := true, proxyRectVisible := true,
            proxyRectListening := true }

/-- CanvasTransformer disableDrag helper. -/
def _disableDrag (st : TransformerFlags) : TransformerFlags :=
  { st with isDragEnabled := false, proxyRectVisible := false,
            proxyRectListening := false }

/-- CanvasTransformer showBboxOutline helper. -/
def _showBboxOutline (st : TransformerFlags) : TransformerFlags :=
  { st with bboxOutlineVisible := true }

/-- CanvasTransformer hideBboxOutline helper. -/
def _hideBboxOutline (st : TransformerFlags) : TransformerFlags :=
  { st with bboxOutlineVisible := false }

/-- CanvasTransformer.setInteractionMode: records the mode and switches the
drag, transform and outline affordances as in the source. -/
def setInteractionMode (st : TransformerFlags) (m : InteractionMode) :
    TransformerFlags :=
  let st0 := { st with interactionMode := m }
  match m with
  | InteractionMode.drag => _showBboxOutline (_disableTransform (_enableDrag st0))
  | InteractionMode.all => _hideBboxOutline (_enableTransform (_enableDrag st0))
  | InteractionMode.off => _hideBboxOutline (_disableTransform (_disableDrag st0))

/-- The entity types of CanvasEntity. -/
inductive EntityType
  | layer
  | regional_guidance
  | inpaint_mask
  | control_adapter
  | ip_adapter
deriving DecidableEq

/-- The PositionChangedArg payload of the position-changed intent. -/
structure PositionChangedArg where
  id : String
  position : Coordinate
deriving DecidableEq

/-- The ScaleChangedArg payload of the scale-changed intent. -/
structure ScaleChangedArg where
  id : String
  position : Coordinate
  scale : ℚ
deriving DecidableEq

/-- Store actions dispatched by the CanvasStateApi facade. -/
inductive Action
  | layerTranslated (arg : PositionChangedArg)
  | rgTranslated (arg : PositionChangedArg)
  | imTranslated (arg : PositionChangedArg)
  | caTranslated (arg : PositionChangedArg)
  | imScaled (arg : ScaleChangedArg)
  | rgScaled (arg : ScaleChangedArg)
  | caScaled (arg : ScaleChangedArg)
deriving DecidableEq

/-- CanvasStateApi.onPosChanged: routes a position-changed intent to the
store action for the given entity type; ip-adapter entities match no
branch and dispatch nothing. -/
def onPosChanged (arg : PositionChangedArg) (entityType : EntityType) :
    List Action :=
  match entityType with
  | EntityType.layer => [Action.layerTranslated arg]
  | EntityType.regional_guidance => [Action.rgTranslated arg]
  | EntityType.inpaint_mask => [Action.imTranslated arg]
  | EntityType.control_adapter => [Action.caTranslated arg]
  | EntityType.ip_adapter => []

/-- CanvasStateApi.onScaleChanged: routes a scale-changed intent to the
store action for the given entity type; layer and ip-adapter entities
match no branch and dispatch nothing. -/
def onScaleChanged (arg : ScaleChangedArg) (entityType : EntityType) :
    List Action :=
  match entityType with
  | EntityType.inpaint_mask => [Action.imScaled arg]
  | EntityType.regional_guidance => [Action.rgScaled arg]
  | EntityType.control_adapter => [Action.caScaled arg]
  | _ => []

/-- The dragend handler of the proxy rectangle: when a transform is in
progress it returns without dispatching; otherwise it dispatches one
position-changed intent whose payload is the proxy position minus the
parent entity bbox origin, with entity type layer. -/
def dragEnd (isTransforming : Bool) (id : String) (proxyX proxyY : ℚ)
    (bbox : Rect) : List Action :=
  if isTransforming then []
  else
    onPosChanged ⟨id, ⟨proxyX - bbox.x, proxyY - bbox.y⟩⟩ EntityType.layer

/-- The lower canvas scale bound MIN_CANVAS_SCALE of CanvasStageModule. -/
def MIN_CANVAS_SCALE : ℚ := 1/10

/-- The upper canvas scale bound MAX_CANVAS_SCALE of CanvasStageModule. -/
def MAX_CANVAS_SCALE : ℚ := 20

/-- The stage position and uniform scale owned by CanvasStageModule. -/
structure StageState where
  x : ℚ
  y : ℚ
  scale : ℚ
deriving DecidableEq

/-- The viewport attributes published to the stageAttrs reactive cell. -/
structure StageAttrs where
  x : ℚ
  y : ℚ
  width : ℚ
  height : ℚ
  scale : ℚ
deriving DecidableEq

/-- The scale committed by CanvasStageModule.setScale: the argument is
rounded to 2 decimal places and clamped to the canvas scale bounds. -/
def setScaleNewScale (scale : ℚ) : ℚ :=
  clamp ((jsRound (scale * 100) : ℤ) / 100) MIN_CANVAS_SCALE MAX_CANVAS_SCALE

/-- CanvasStageModule.setScale: clamps and rounds the requested scale, then
re-anchors the stage so that the given center keeps its logical-space
preimage, as in the source. -/
def setScale (st : StageState) (scale : ℚ) (center : Coordinate) : StageState :=
  let newScale := setScaleNewScale scale
  let deltaX := (center.x - st.x) / st.scale
  let deltaY := (center.y - st.y) / st.scale
  let newX := center.x - deltaX * newScale
  let newY := center.y - deltaY * newScale
  ⟨newX, newY, newScale⟩

/-- The stageAttrs value published at the end of CanvasStageModule.setScale:
the new stage offset floored to integers, the stage size, and the new
stage scale. -/
def setScalePublish (st : StageState) (size : Dimensions) (scale : ℚ)
    (center : Coordinate) : StageAttrs :=
  let st1 := setScale st scale center
  ⟨(⌊st1.x⌋ : ℤ), (⌊st1.y⌋ : ℤ), size.width, size.height, st1.scale⟩

/-- A sequence of setScale calls applied in order. -/
def applySetScales (st : StageState) (calls : List (ℚ × Coordinate)) :
    StageState :=
  calls.foldl (fun s c => setScale s c.1 c.2) st

/-- The invariant maintained by setScale for the stage scale: it lies in
the canvas scale bounds and is an integer number of hundredths. -/
def ScaleInvariant (v : ℚ) : Prop :=
  MIN_CANVAS_SCALE ≤ v ∧ v ≤ MAX_CANVAS_SCALE ∧ ∃ k : ℤ, v = (k : ℚ) / 100

/-- The stage attributes computed by CanvasStageModule.fitRect: scale and
offset that fit a rect into the stage size with 20 px padding. -/
structure FitRectResult where
  x : ℚ
  y : ℚ
  scale : ℚ
deriving DecidableEq

/-- CanvasStageModule.fitRect: fits the rect into the available area (the
stage size less 20 px padding on each side), never scaling past 1, and
centers it, as in the source. -/
def fitRect (size : Dimensions) (rect : Rect) : FitRectResult :=
  let padding : ℚ := 20
  let availableWidth := size.width - padding * 2
  let availableHeight := size.height - padding * 2
  let scale := min (min (availableWidth / rect.width) (availableHeight / rect.height)) 1
  let x := -rect.x * scale + padding + (availableWidth - rect.width * scale) / 2
  let y := -rect.y * scale + padding + (availableHeight - rect.height * scale) / 2
  ⟨x, y, scale⟩

/-- Trichotomy for jsSign: it is 1 on positives, 0 at zero, -1 on
negatives. -/
theorem jsSign_cases (s : ℚ) :
    (0 < s ∧ jsSign s = 1) ∨ (s = 0 ∧ jsSign s = 0) ∨ (s < 0 ∧ jsSign s = -1) := by
  unfold jsSign
  rcases lt_trichotomy s 0 with h | h | h
  · exact Or.inr (Or.inr ⟨h, by rw [if_neg (not_lt.mpr h.le), if_pos h]⟩)
  · exact Or.inr (Or.inl ⟨h, by rw [h]; norm_num⟩)
  · exact Or.inl ⟨h, if_pos h⟩

/-- The scale recovery computation of the transformend handler, for one
axis: the target dimension is an integer at least 1, and the recovered
scale times the unscaled dimension has the target dimension as magnitude
and keeps the sign of the incoming scale. -/
theorem targetScale_recovery (w s : ℚ) (hw : w ≠ 0) (hs : s ≠ 0) :
    (1 ≤ ((max |jsRound (w * s)| 1 : ℤ) : ℚ) ∧
      ∃ k : ℤ, ((max |jsRound (w * s)| 1 : ℤ) : ℚ) = (k : ℚ)) ∧
    |((max |jsRound (w * s)| 1 : ℤ) : ℚ) / w * jsSign s * w|
      = ((max |jsRound (w * s)| 1 : ℤ) : ℚ) ∧
    jsSign (((max |jsRound (w * s)| 1 : ℤ) : ℚ) / w * jsSign s * w) = jsSign s := by
  set t : ℚ := ((max |jsRound (w * s)| 1 : ℤ) : ℚ) with ht
  have ht1 : (1 : ℚ) ≤ t := by
    rw [ht]
    exact_mod_cast le_max_right |jsRound (w * s)| 1
  have ht0 : (0 : ℚ) < t := lt_of_lt_of_le zero_lt_one ht1
  have hprod : t / w * jsSign s * w = t * jsSign s := by
    field_simp
  refine ⟨⟨ht1, ⟨max |jsRound (w * s)| 1, rfl⟩⟩, ?_, ?_⟩
  · rw [hprod]
    rcases jsSign_cases s with ⟨-, h⟩ | ⟨h, -⟩ | ⟨-, h⟩
    · rw [h, mul_one, abs_of_pos ht0]
    · exact absurd h hs
    · rw [h]
      rw [show t * (-1 : ℚ) = -t by ring, abs_neg, abs_of_pos ht0]
  · rw [hprod]
    rcases jsSign_cases s with ⟨-, h⟩ | ⟨h, -⟩ | ⟨-, h⟩
    · rw [h, mul_one]
      unfold jsSign
      rw [if_pos ht0]
    · exact absurd h hs
    · rw [h]
      have hneg : t * (-1 : ℚ) < 0 := by linarith
      unfold jsSign
      rw [if_neg (not_lt.mpr hneg.le), if_pos hneg]

/-- The scale committed by a single setScale call satisfies the scale
invariant. -/
theorem setScaleNewScale_invariant (s : ℚ) : ScaleInvariant (setScaleNewScale s) := by
  unfold ScaleInvariant setScaleNewScale clamp MIN_CANVAS_SCALE MAX_CANVAS_SCALE
  refine ⟨le_max_right _ _, max_le ((min_le_right _ _).trans (by norm_num)) (by norm_num), ?_⟩
  rcases max_cases (min (((jsRound (s * 100) : ℤ) : ℚ) / 100) 20) (1 / 10) with ⟨h, -⟩ | ⟨h, -⟩
  · rw [h]
    rcases min_cases (((jsRound (s * 100) : ℤ) : ℚ) / 100) 20 with ⟨h2, -⟩ | ⟨h2, -⟩
    · rw [h2]
      exact ⟨jsRound (s * 100), rfl⟩
    · rw [h2]
      exact ⟨2000, by norm_num⟩
  · rw [h]
    exact ⟨10, by norm_num⟩

/-- The stage scale after a setScale call is the committed new scale. -/
theorem setScale_scale (st : StageState) (s : ℚ) (c : Coordinate) :
    (setScale st s c).scale = setScaleNewScale s := rfl

/-- Applying any further sequence of setScale calls preserves the scale
invariant. -/
theorem applySetScales_invariant :
    ∀ (calls : List (ℚ × Coordinate)) (st : StageState),
      ScaleInvariant st.scale → ScaleInvariant (applySetScales st calls).scale
  | [], _, h => h
  | c :: cs, st, _ =>
    applySetScales_invariant cs (setScale st c.1 c.2)
      (setScale_scale st c.1 c.2 ▸ setScaleNewScale_invariant c.1)

/-- Claim C3: syncInteractionState computes the interaction mode as a pure
function of content, selection, active tool and transforming flag: no
content gives mode off; content, selected, move tool and not transforming
gives drag; content, selected, transforming and tool other than view gives
all; every other combination gives off. -/
theorem syncInteractionState_mode_table :
    ∀ (hasObjects isSelected : Bool) (tool : Tool) (isTransforming : Bool),
      (hasObjects = false →
        (syncInteractionState hasObjects isSelected tool isTransforming).mode
          = InteractionMode.off) ∧
      (hasObjects = true ∧ isSelected = true ∧ tool = Tool.move ∧ isTransforming = false →
        (syncInteractionState hasObjects isSelected tool isTransforming).mode
          = InteractionMode.drag) ∧
      (hasObjects = true ∧ isSelected = true ∧ isTransforming = true ∧ tool ≠ Tool.view →
        (syncInteractionState hasObjects isSelected tool isTransforming).mode
          = InteractionMode.all) ∧
      (¬(hasObjects = true ∧ isSelected = true ∧ tool = Tool.move ∧ isTransforming = false) ∧
       ¬(hasObjects = true ∧ isSelected = true ∧ isTransforming = true ∧ tool ≠ Tool.view) →
        (syncInteractionState hasObjects isSelected tool isTransforming).mode
          = InteractionMode.off) := by
  intro hc sel tool tr
  cases hc <;> cases sel <;> cases tool <;> cases tr <;>
    simp [syncInteractionState]

/-- Witness for claim C3: a selected entity with content, the move tool and
no transform in progress gets mode drag. -/
theorem syncInteractionState_mode_table_witness :
    (syncInteractionState true true Tool.move false).mode = InteractionMode.drag :=
  (syncInteractionState_mode_table true true Tool.move false).2.1 ⟨rfl, rfl, rfl, rfl⟩

/-- Claim C9: onScaleChanged dispatches nothing for layer entities, and
dispatches exactly the corresponding scaled action for inpaint-mask,
regional-guidance and control-adapter entities. -/
theorem onScaleChanged_routing :
    ∀ arg : ScaleChangedArg,
      onScaleChanged arg EntityType.layer = [] ∧
      onScaleChanged arg EntityType.inpaint_mask = [Action.imScaled arg] ∧
      onScaleChanged arg EntityType.regional_guidance = [Action.rgScaled arg] ∧
      onScaleChanged arg EntityType.control_adapter = [Action.caScaled arg] :=
  fun _ => ⟨rfl, rfl, rfl, rfl⟩

/-- Claim C10: after setInteractionMode, drag is enabled exactly in the
drag and all modes, transform exactly in the all mode, the bbox outline is
visible exactly in the drag mode, and the recorded mode is the argument. -/
theorem setInteractionMode_invariants :
    ∀ (st : TransformerFlags) (m : InteractionMode),
      ((setInteractionMode st m).isDragEnabled = true ↔
        m = InteractionMode.drag ∨ m = InteractionMode.all) ∧
      ((setInteractionMode st m).isTransformEnabled = true ↔ m = InteractionMode.all) ∧
      ((setInteractionMode st m).bboxOutlineVisible = true ↔ m = InteractionMode.drag) ∧
      (setInteractionMode st m).interactionMode = m := by
  intro st m
  cases m <;>
    simp [setInteractionMode, _enableDrag, _disableDrag, _enableTransform,
      _disableTransform, _showBboxOutline, _hideBboxOutline]

/-- Claim C8: the dragend handler dispatches nothing while a transform is
in progress, and otherwise dispatches exactly one position-changed intent
carrying the proxy position minus the parent bbox origin. -/
theorem dragEnd_commit :
    ∀ (isTransforming : Bool) (id : String) (proxyX proxyY : ℚ) (bbox : Rect),
      (isTransforming = true → dragEnd isTransforming id proxyX proxyY bbox = []) ∧
      (isTransforming = false →
        dragEnd isTransforming id proxyX proxyY bbox
          = [Action.layerTranslated ⟨id, ⟨proxyX - bbox.x, proxyY - bbox.y⟩⟩]) := by
  intro t id px py bbox
  cases t <;> simp [dragEnd, onPosChanged]

/-- Witness for claim C8: a concrete drag release with and without a
transform in progress. -/
theorem dragEnd_commit_witness :
    dragEnd true "entity" 5 7 ⟨1, 2, 10, 10⟩ = [] ∧
    dragEnd false "entity" 5 7 ⟨1, 2, 10, 10⟩
      = [Action.layerTranslated ⟨"entity", ⟨5 - 1, 7 - 2⟩⟩] :=
  ⟨(dragEnd_commit true "entity" 5 7 ⟨1, 2, 10, 10⟩).1 rfl,
   (dragEnd_commit false "entity" 5 7 ⟨1, 2, 10, 10⟩).2 rfl⟩

/-- Claim C2: setScale is center-stable: with a nonzero old scale and a
nonzero committed scale, the logical-space point under the given center is
the same before and after the call, exactly over rational arithmetic. -/
theorem setScale_center_stable :
    ∀ (st : StageState) (s : ℚ) (center : Coordinate),
      st.scale ≠ 0 → setScaleNewScale s ≠ 0 →
      (center.x - (setScale st s center).x) / (setScale st s center).scale
        = (center.x - st.x) / st.scale ∧
      (center.y - (setScale st s center).y) / (setScale st s center).scale
        = (center.y - st.y) / st.scale := by
  intro st s c h0 h1
  have hx : (setScale st s c).x
      = c.x - (c.x - st.x) / st.scale * setScaleNewScale s := rfl
  have hy : (setScale st s c).y
      = c.y - (c.y - st.y) / st.scale * setScaleNewScale s := rfl
  have hs : (setScale st s c).scale = setScaleNewScale s := rfl
  constructor
  · rw [hx, hs, sub_sub_cancel, mul_div_cancel_right₀ _ h1]
  · rw [hy, hs, sub_sub_cancel, mul_div_cancel_right₀ _ h1]

/-- Witness for claim C2: zooming from scale 1 to scale 2 about the point
with coordinates 10 and 20 leaves the preimage of that point unchanged. -/
theorem setScale_center_stable_witness :
    ((10 : ℚ) - (setScale ⟨0, 0, 1⟩ 2 ⟨10, 20⟩).x) / (setScale ⟨0, 0, 1⟩ 2 ⟨10, 20⟩).scale
      = ((10 : ℚ) - 0) / 1 ∧
    ((20 : ℚ) - (setScale ⟨0, 0, 1⟩ 2 ⟨10, 20⟩).y) / (setScale ⟨0, 0, 1⟩ 2 ⟨10, 20⟩).scale
      = ((20 : ℚ) - 0) / 1 :=
  setScale_center_stable ⟨0, 0, 1⟩ 2 ⟨10, 20⟩ (by norm_num)
    (by norm_num [setScaleNewScale, clamp, jsRound, MIN_CANVAS_SCALE, MAX_CANVAS_SCALE])

/-- Claim C5: after any nonempty sequence of setScale calls the stage
scale lies in the canvas scale bounds and is rounded to 2 decimal places,
and each call publishes viewport attributes whose offset is the stage
offset floored to integers. -/
theorem setScale_sequence_invariants :
    ∀ (st : StageState) (s : ℚ) (c : Coordinate) (rest : List (ℚ × Coordinate))
      (st2 : StageState) (size : Dimensions) (s2 : ℚ) (c2 : Coordinate),
      (MIN_CANVAS_SCALE ≤ (applySetScales (setScale st s c) rest).scale ∧
       (applySetScales (setScale st s c) rest).scale ≤ MAX_CANVAS_SCALE ∧
       ∃ k : ℤ, (applySetScales (setScale st s c) rest).scale = (k : ℚ) / 100) ∧
      (setScalePublish st2 size s2 c2).x = ((⌊(setScale st2 s2 c2).x⌋ : ℤ) : ℚ) ∧
      (setScalePublish st2 size s2 c2).y = ((⌊(setScale st2 s2 c2).y⌋ : ℤ) : ℚ) := by
  intro st s c rest st2 size s2 c2
  exact ⟨applySetScales_invariant rest (setScale st s c)
      (setScale_scale st s c ▸ setScaleNewScale_invariant s), rfl, rfl⟩

/-- Claim C4: in the boundBoxFunc callback, while the rotate anchor is
active: with shift held, a candidate rotation with nonzero remainder
modulo a quarter of Math.PI is rejected and the old box returned; with the
remainder zero the new box is accepted; without shift every candidate is
accepted. -/
theorem boundBoxFunc_rotation_snap :
    ∀ (shiftKey : Bool) (activeAnchor : Option String) (o n : BoundBox),
      activeAnchor = some "rotater" →
      (shiftKey = true → 0 < |jsMod n.rotation (jsPI / 4)| →
        boundBoxFunc shiftKey activeAnchor o n = o) ∧
      (shiftKey = true → jsMod n.rotation (jsPI / 4) = 0 →
        boundBoxFunc shiftKey activeAnchor o n = n) ∧
      (shiftKey = false → boundBoxFunc shiftKey activeAnchor o n = n) := by
  intro shiftKey anchor o n hA
  subst hA
  refine ⟨?_, ?_, ?_⟩
  · intro hs hrot
    simp [boundBoxFunc, hs, hrot]
  · intro hs hrot
    simp [boundBoxFunc, hs, hrot]
  · intro hs
    simp [boundBoxFunc, hs]

/-- Witness for claim C4: a candidate rotation of 1 radian is rejected
under shift and accepted without shift. -/
theorem boundBoxFunc_rotation_snap_witness :
    boundBoxFunc true (some "rotater") ⟨0, 0, 50, 50, 0⟩ ⟨0, 0, 50, 50, 1⟩
      = ⟨0, 0, 50, 50, 0⟩ ∧
    boundBoxFunc false (some "rotater") ⟨0, 0, 50, 50, 0⟩ ⟨0, 0, 50, 50, 1⟩
      = ⟨0, 0, 50, 50, 1⟩ :=
  ⟨(boundBoxFunc_rotation_snap true (some "rotater") ⟨0, 0, 50, 50, 0⟩
      ⟨0, 0, 50, 50, 1⟩ rfl).1 rfl
      (by show 0 < |jsMod 1 (jsPI / 4)|; norm_num [jsMod, jsTrunc, jsPI]),
   (boundBoxFunc_rotation_snap false (some "rotater") ⟨0, 0, 50, 50, 0⟩
      ⟨0, 0, 50, 50, 1⟩ rfl).2.2 rfl⟩

/-- Claim C6: for a rect with positive dimensions and a container with
positive available area, fitRect computes the scale as the minimum of the
two available-over-rect ratios and 1, so it never exceeds 1, and when the
container and rect aspect ratios match the fitted rect is centered: left
and right margins are equal and top and bottom margins are equal. -/
theorem fitRect_fits :
    ∀ (size : Dimensions) (rect : Rect),
      0 < rect.width → 0 < rect.height →
      0 < size.width - 40 → 0 < size.height - 40 →
      size.width * rect.height = size.height * rect.width →
      (fitRect size rect).scale
        = min (min ((size.width - 40) / rect.width) ((size.height - 40) / rect.height)) 1 ∧
      (fitRect size rect).scale ≤ 1 ∧
      (fitRect size rect).x + rect.x * (fitRect size rect).scale
        = size.width - ((fitRect size rect).x + rect.x * (fitRect size rect).scale
            + rect.width * (fitRect size rect).scale) ∧
      (fitRect size rect).y + rect.y * (fitRect size rect).scale
        = size.height - ((fitRect size rect).y + rect.y * (fitRect size rect).scale
            + rect.height * (fitRect size rect).scale) := by
  intro size rect hrw hrh haw hah hasp
  have hs : (fitRect size rect).scale
      = min (min ((size.width - 40) / rect.width) ((size.height - 40) / rect.height)) 1 := by
    show min (min ((size.width - 20 * 2) / rect.width) ((size.height - 20 * 2) / rect.height)) 1
        = _
    norm_num
  have hxdef : (fitRect size rect).x
      = -rect.x * (fitRect size rect).scale + 20
        + (size.width - 20 * 2 - rect.width * (fitRect size rect).scale) / 2 := rfl
  have hydef : (fitRect size rect).y
      = -rect.y * (fitRect size rect).scale + 20
        + (size.height - 20 * 2 - rect.height * (fitRect size rect).scale) / 2 := rfl
  refine ⟨hs, hs ▸ min_le_right _ _, ?_, ?_⟩
  · rw [hxdef]
    ring
  · rw [hydef]
    ring

/-- Witness for claim C6: a 100 by 100 rect in a 140 by 140 container is
fitted at scale 1 with equal margins. -/
theorem fitRect_fits_witness :
    (fitRect ⟨140, 140⟩ ⟨0, 0, 100, 100⟩).scale ≤ 1 :=
  (fitRect_fits ⟨140, 140⟩ ⟨0, 0, 100, 100⟩ (by norm_num) (by norm_num)
    (by norm_num) (by norm_num) (by norm_num)).2.1

/-- Counterexample for claim C7: for the zero-size container and a 100 by
100 rect, fitRect produces scale -2/5, which is negative and out of the
canvas scale bounds, so the fit does not fall back to a safe in-bounds
default. -/
theorem fitRect_zero_container_cex :
    (fitRect ⟨0, 0⟩ ⟨0, 0, 100, 100⟩).scale = -2/5 ∧
    (fitRect ⟨0, 0⟩ ⟨0, 0, 100, 100⟩).scale < 0 ∧
    ¬ (MIN_CANVAS_SCALE ≤ (fitRect ⟨0, 0⟩ ⟨0, 0, 100, 100⟩).scale ∧
       (fitRect ⟨0, 0⟩ ⟨0, 0, 100, 100⟩).scale ≤ MAX_CANVAS_SCALE) := by
  norm_num [fitRect, min_def, MIN_CANVAS_SCALE, MAX_CANVAS_SCALE]

/-- Claim C7 as amended: for a zero-size container and a rect with
positive dimensions, fitRect evaluates without any guard to the scale
min of -40 over the rect dimensions and 1, which is negative, hence out
of bounds; there is no fallback to unit scale. -/
theorem fitRect_zero_container :
    ∀ rect : Rect, 0 < rect.width → 0 < rect.height →
      (fitRect ⟨0, 0⟩ rect).scale
        = min (min (-40 / rect.width) (-40 / rect.height)) 1 ∧
      (fitRect ⟨0, 0⟩ rect).scale < 0 := by
  intro rect hw hh
  have hs : (fitRect ⟨0, 0⟩ rect).scale
      = min (min (-40 / rect.width) (-40 / rect.height)) 1 := by
    show min (min (((0 : ℚ) - 20 * 2) / rect.width) (((0 : ℚ) - 20 * 2) / rect.height)) 1 = _
    norm_num
  refine ⟨hs, ?_⟩
  rw [hs]
  have ha : (-40 : ℚ) / rect.width < 0 := div_neg_of_neg_of_pos (by norm_num) hw
  exact lt_of_le_of_lt ((min_le_left _ _).trans (min_le_left _ _)) ha

/-- Witness for claim C7 as amended: the zero container with a 100 by 100
rect yields a negative scale. -/
theorem fitRect_zero_container_witness :
    (fitRect ⟨0, 0⟩ ⟨0, 0, 100, 100⟩).scale < 0 :=
  (fitRect_zero_container ⟨0, 0, 100, 100⟩ (by norm_num) (by norm_num)).2

/-- Counterexample for claim C1: with width 10, height 10 and accumulated
scales 0 and 1, the committed target width is 1 but the recovered scale
times the width is 0, so the committed integer dimension is not reproduced
in magnitude when a scale factor is zero. -/
theorem transformEnd_zero_scale_cex :
    (transformEnd 0 0 10 10 0 1).targetWidth = 1 ∧
    (transformEnd 0 0 10 10 0 1).snappedScaleX * 10 = 0 ∧
    ¬ (|(transformEnd 0 0 10 10 0 1).snappedScaleX * 10|
        = (transformEnd 0 0 10 10 0 1).targetWidth) := by
  norm_num [transformEnd, jsRound, jsSign, max_def]

/-- Claim C1 as amended: at transform end, with nonzero pre-existing width
and height and nonzero accumulated scales, the committed target dimensions
are integers at least 1 given by the rounded absolute scaled dimensions,
the recovered scales times the unscaled dimensions reproduce the committed
dimensions exactly in magnitude with the signs of the incoming scales
preserved, and the committed position is rounded to the nearest integer. -/
theorem transformEnd_commit :
    ∀ (x y w h sx sy : ℚ), w ≠ 0 → h ≠ 0 → sx ≠ 0 → sy ≠ 0 →
      (1 ≤ (transformEnd x y w h sx sy).targetWidth ∧
        ∃ k : ℤ, (transformEnd x y w h sx sy).targetWidth = (k : ℚ)) ∧
      (1 ≤ (transformEnd x y w h sx sy).targetHeight ∧
        ∃ k : ℤ, (transformEnd x y w h sx sy).targetHeight = (k : ℚ)) ∧
      |(transformEnd x y w h sx sy).snappedScaleX * w|
        = (transformEnd x y w h sx sy).targetWidth ∧
      jsSign ((transformEnd x y w h sx sy).snappedScaleX * w) = jsSign sx ∧
      |(transformEnd x y w h sx sy).snappedScaleY * h|
        = (transformEnd x y w h sx sy).targetHeight ∧
      jsSign ((transformEnd x y w h sx sy).snappedScaleY * h) = jsSign sy ∧
      (transformEnd x y w h sx sy).snappedX = ((jsRound x : ℤ) : ℚ) ∧
      (transformEnd x y w h sx sy).snappedY = ((jsRound y : ℤ) : ℚ) := by
  intro x y w h sx sy hw hh hsx hsy
  obtain ⟨hW1, hW2, hW3⟩ := targetScale_recovery w sx hw hsx
  obtain ⟨hH1, hH2, hH3⟩ := targetScale_recovery h sy hh hsy
  exact ⟨hW1, hH1, hW2, hW3, hH2, hH3, rfl, rfl⟩

/-- Witness for claim C1 as amended: resizing a 100 by 50 rect by scales
309/250 and -1/2 commits integer dimensions that the recovered scales
reproduce, preserving the flip of the vertical scale. -/
theorem transformEnd_commit_witness :
    |(transformEnd 0 0 100 50 (309/250) (-1/2)).snappedScaleX * 100|
      = (transformEnd 0 0 100 50 (309/250) (-1/2)).targetWidth ∧
    jsSign ((transformEnd 0 0 100 50 (309/250) (-1/2)).snappedScaleY * 50)
      = jsSign (-1/2) :=
  ⟨(transformEnd_commit 0 0 100 50 (309/250) (-1/2) (by norm_num) (by norm_num)
      (by norm_num) (by norm_num)).2.2.1,
   (transformEnd_commit 0 0 100 50 (309/250) (-1/2) (by norm_num) (by norm_num)
      (by norm_num) (by norm_num)).2.2.2.2.2.1⟩

end Spec2Proof
